import Mathlib

/-!
Shallow embedding of the `Product` smart contract (Solidity 0.8, ERC721 +
AccessControl): product registration, ownership transfer with automatic
warranty activation, warranty claim submission, claim processing and
service recording.

Modelling conventions:
* machine integers are `Nat`, reduced modulo `2 ^ 64` / `2 ^ 32` exactly
  where the source performs a narrowing cast (`uint64(...)`, storage of a
  `uint64`/`uint32` calldata argument), and Solidity 0.8 checked
  arithmetic is modelled by an explicit `ArithmeticPanic` error on the
  `++` counters and the `block.timestamp + warrantyDuration` addition;
* `keccak256(bytes(serialNumber))` is modelled as the identity on
  strings, since the contract relies only on its collision resistance;
* addresses are `Nat`, with `0` the null address;
* the base ERC721 `_update` is modelled as recording the new owner and
  returning the previous one; balances, operator approvals, events and
  the transfer-authorization check are not observed by any property and
  are left to the external authorization layer, except for the
  nonexistent-token check on the public transfer path, which is kept;
* a reverting call returns `Except.error e` and, by the all-or-nothing
  transaction semantics, leaves the caller with the unchanged pre-state.
-/

namespace Product

def UINT32 : Nat := 2 ^ 32

def UINT64 : Nat := 2 ^ 64

def UINT256 : Nat := 2 ^ 256

abbrev Address := Nat

inductive Role where
  | DEFAULT_ADMIN
  | MANUFACTURER
  | RETAILER
  | SERVICE_CENTER
deriving DecidableEq

/-- Custom errors of the contract, plus the inherited OpenZeppelin ERC721 /
AccessControl errors and the checked-arithmetic panic that the model can
reach. -/
inductive ContractError where
  | SerialNumberEmpty (message : String)
  | SerialNumberExists (message : String)
  | ZeroAddress (message : String)
  | NotRetailer (message : String)
  | WarrantyAlreadyActivated
  | NotOwner
  | WarrantyNotActivated
  | WarrantyExpired
  | ClaimLimitReached
  | IssueDescriptionEmpty
  | ClaimNotExist
  | ClaimAlreadyProcessed
  | ClaimNotApproved
  | ServiceAlreadyRecorded
  | ServiceNotesEmpty
  | ProductNotRegistered
  | ERC721NonexistentToken (tokenId : Nat)
  | ERC721InvalidReceiver (receiver : Address)
  | ERC721InvalidSender (sender : Address)
  | AccessControlUnauthorizedAccount (account : Address)
  | ArithmeticPanic
deriving DecidableEq

structure ProductDetails where
  serialNumber : String
  model : String
  manufacturer : Address
  manufactureTimestamp : Nat
  warrantyDuration : Nat
  warrantyStart : Nat
  warrantyExpiration : Nat
  warrantyClaimLimit : Nat
  warrantyClaimCount : Nat
deriving DecidableEq

structure WarrantyClaim where
  tokenId : Nat
  customer : Address
  issueDescription : String
  submittedAt : Nat
  processed : Bool
  approved : Bool
  serviceNotes : String
  processedAt : Nat
deriving DecidableEq

/-- Solidity default value of a `ProductDetails` storage slot. -/
def emptyProduct : ProductDetails :=
  { serialNumber := "", model := "", manufacturer := 0, manufactureTimestamp := 0
    warrantyDuration := 0, warrantyStart := 0, warrantyExpiration := 0
    warrantyClaimLimit := 0, warrantyClaimCount := 0 }

/-- Solidity default value of a `WarrantyClaim` storage slot. -/
def emptyClaim : WarrantyClaim :=
  { tokenId := 0, customer := 0, issueDescription := "", submittedAt := 0
    processed := false, approved := false, serviceNotes := "", processedAt := 0 }

/-- The contract storage: the two id counters, the three mappings, the
ERC721 owner index and the AccessControl role grants. -/
structure ContractState where
  tokenIdCounter : Nat
  claimIdCounter : Nat
  tokenIdForSerialHash : String → Nat
  productDetails : Nat → ProductDetails
  warrantyClaims : Nat → WarrantyClaim
  owners : Nat → Address
  roles : Role → Address → Bool

/-- Point update of a `Nat`-keyed mapping. -/
def mapUpd {α : Type} (m : Nat → α) (k : Nat) (v : α) : Nat → α :=
  fun i => if i = k then v else m i

/-- Point update of the serial-hash index. -/
def serialUpd (m : String → Nat) (k : String) (v : Nat) : String → Nat :=
  fun i => if i = k then v else m i

/-- Point update of the role-grant table. -/
def roleUpd (m : Role → Address → Bool) (r : Role) (a : Address) (v : Bool) :
    Role → Address → Bool :=
  fun r2 a2 => if r2 = r ∧ a2 = a then v else m r2 a2

def hasRole (s : ContractState) (r : Role) (a : Address) : Bool :=
  s.roles r a

/-- A string of byte length zero is the empty string (used for the
`bytes(x).length == 0` checks of the source). -/
theorem string_length_zero (str : String) (h : str.length = 0) : str = "" := by
  cases str with
  | mk data =>
    cases data with
    | nil => rfl
    | cons c cs => simp [String.length] at h

/-- State right after the constructor ran: both counters at 1, all
mappings empty, and every role (including the admin role) granted to the
deployer. -/
def initialState (deployer : Address) : ContractState :=
  { tokenIdCounter := 1
    claimIdCounter := 1
    tokenIdForSerialHash := fun _ => 0
    productDetails := fun _ => emptyProduct
    warrantyClaims := fun _ => emptyClaim
    owners := fun _ => 0
    roles := fun _ a => a == deployer }

/-- ERC721 `ownerOf` (`_requireOwned`): the owner, or the inherited
nonexistent-token error when no owner is recorded. -/
def ownerOf (s : ContractState) (tokenId : Nat) : Except ContractError Address :=
  if s.owners tokenId = 0 then .error (.ERC721NonexistentToken tokenId)
  else .ok (s.owners tokenId)

/-- `_activateWarranty`: defensive re-activation check, then
`warrantyStart = uint64(block.timestamp)` and
`warrantyExpiration = uint64(block.timestamp + warrantyDuration)`, the
inner addition being checked `uint256` arithmetic. -/
def _activateWarranty (s : ContractState) (now : Nat) (tokenId : Nat)
    (customer : Address) : Except ContractError ContractState :=
  let product := s.productDetails tokenId
  if product.warrantyStart ≠ 0 then .error .WarrantyAlreadyActivated
  else if UINT256 ≤ now + product.warrantyDuration then .error .ArithmeticPanic
  else .ok { s with
    productDetails := mapUpd s.productDetails tokenId
      { product with
        warrantyStart := now % UINT64
        warrantyExpiration := (now + product.warrantyDuration) % UINT64 } }

/-- The contract's `_update` override: read the previous owner, let the
base ERC721 `_update` record the new owner, then run the conditional
automatic warranty activation.  Returns the new state and the previous
owner.  (`customer` passed to activation is `to`, as in the source.) -/
def _update (s : ContractState) (now : Nat) (toAddr : Address) (tokenId : Nat) :
    Except ContractError (ContractState × Address) :=
  let fromAddr := s.owners tokenId
  let s1 : ContractState := { s with owners := mapUpd s.owners tokenId toAddr }
  if fromAddr ≠ 0 ∧ hasRole s1 .RETAILER fromAddr = true ∧
      hasRole s1 .RETAILER toAddr = false ∧ toAddr ≠ 0 ∧
      (s1.productDetails tokenId).warrantyStart = 0 then
    match _activateWarranty s1 now tokenId toAddr with
    | .error e => .error e
    | .ok s2 => .ok (s2, fromAddr)
  else .ok (s1, fromAddr)

/-- ERC721 `_mint`: rejects the null receiver and an already-existing
token, otherwise runs the (overridden) `_update` with a null sender. -/
def _mint (s : ContractState) (now : Nat) (toAddr : Address) (tokenId : Nat) :
    Except ContractError ContractState :=
  if toAddr = 0 then .error (.ERC721InvalidReceiver 0)
  else
    match _update s now toAddr tokenId with
    | .error e => .error e
    | .ok (s1, previousOwner) =>
      if previousOwner ≠ 0 then .error (.ERC721InvalidSender 0) else .ok s1

/-- `_safeMint` adds only the `onERC721Received` hook for contract
receivers, which is not observable for externally-owned accounts and is
not modelled. -/
def _safeMint := _mint

/-- `registerProduct`, guarded by `onlyRole(MANUFACTURER_ROLE)`: the four
ordered precondition checks, the post-incremented id allocation, the
stored record, the serial-hash index entry and the safe mint to the
initial owner.  The `uint64`/`uint32` calldata arguments are reduced
modulo their width at the ABI boundary. -/
def registerProduct (s : ContractState) (now : Nat) (caller : Address)
    (initialOwner : Address) (serialNumber : String) (model : String)
    (warrantyDurationInSeconds : Nat) (claimLimit : Nat) :
    Except ContractError (ContractState × Nat) :=
  if hasRole s .MANUFACTURER caller = false then
    .error (.AccessControlUnauthorizedAccount caller)
  else if serialNumber.length = 0 then
    .error (.SerialNumberEmpty "serialnumber empty")
  else if s.tokenIdForSerialHash serialNumber ≠ 0 then
    .error (.SerialNumberExists "serialnumber already exists")
  else if initialOwner = 0 then
    .error (.ZeroAddress "address equals to zero")
  else if hasRole s .RETAILER initialOwner = false then
    .error (.NotRetailer "not retailer")
  else if UINT256 ≤ s.tokenIdCounter + 1 then .error .ArithmeticPanic
  else
    let newItemId := s.tokenIdCounter
    let s1 : ContractState := { s with
      tokenIdCounter := s.tokenIdCounter + 1
      productDetails := mapUpd s.productDetails newItemId
        { serialNumber := serialNumber
          model := model
          manufacturer := caller
          manufactureTimestamp := now % UINT64
          warrantyDuration := warrantyDurationInSeconds % UINT64
          warrantyStart := 0
          warrantyExpiration := 0
          warrantyClaimLimit := claimLimit % UINT32
          warrantyClaimCount := 0 }
      tokenIdForSerialHash := serialUpd s.tokenIdForSerialHash serialNumber newItemId }
    match _safeMint s1 now initialOwner newItemId with
    | .error e => .error e
    | .ok s2 => .ok (s2, newItemId)

/-- `submitWarrantyClaim`: `ownerOf` lookup (which itself reverts on a
nonexistent token), the five ordered precondition checks, then the
claim-count increment and the stored claim. -/
def submitWarrantyClaim (s : ContractState) (now : Nat) (caller : Address)
    (tokenId : Nat) (issueDescription : String) :
    Except ContractError (ContractState × Nat) :=
  match ownerOf s tokenId with
  | .error e => .error e
  | .ok owner =>
    if owner ≠ caller then .error .NotOwner
    else
      let product := s.productDetails tokenId
      if product.warrantyStart = 0 then .error .WarrantyNotActivated
      else if product.warrantyExpiration < now then .error .WarrantyExpired
      else if product.warrantyClaimLimit ≤ product.warrantyClaimCount then
        .error .ClaimLimitReached
      else if issueDescription.length = 0 then .error .IssueDescriptionEmpty
      else if UINT32 ≤ product.warrantyClaimCount + 1 then .error .ArithmeticPanic
      else if UINT256 ≤ s.claimIdCounter + 1 then .error .ArithmeticPanic
      else
        let newClaimId := s.claimIdCounter
        .ok ({ s with
          claimIdCounter := s.claimIdCounter + 1
          productDetails := mapUpd s.productDetails tokenId
            { product with warrantyClaimCount := product.warrantyClaimCount + 1 }
          warrantyClaims := mapUpd s.warrantyClaims newClaimId
            { tokenId := tokenId
              customer := s.owners tokenId
              issueDescription := issueDescription
              submittedAt := now % UINT64
              processed := false
              approved := false
              serviceNotes := ""
              processedAt := 0 } }, newClaimId)

/-- `processWarrantyClaim`, guarded by `onlyRole(SERVICE_CENTER_ROLE)`:
existence and not-already-processed checks, then the one-shot decision. -/
def processWarrantyClaim (s : ContractState) (now : Nat) (caller : Address)
    (claimId : Nat) (approved : Bool) : Except ContractError ContractState :=
  if hasRole s .SERVICE_CENTER caller = false then
    .error (.AccessControlUnauthorizedAccount caller)
  else
    let claim := s.warrantyClaims claimId
    if claim.tokenId = 0 then .error .ClaimNotExist
    else if claim.processed = true then .error .ClaimAlreadyProcessed
    else .ok { s with
      warrantyClaims := mapUpd s.warrantyClaims claimId
        { claim with
          processed := true, approved := approved, processedAt := now % UINT64 } }

/-- `recordService`, guarded by `onlyRole(SERVICE_CENTER_ROLE)`: the four
ordered precondition checks, then the one-shot write of the notes. -/
def recordService (s : ContractState) (now : Nat) (caller : Address)
    (claimId : Nat) (serviceNotes : String) : Except ContractError ContractState :=
  if hasRole s .SERVICE_CENTER caller = false then
    .error (.AccessControlUnauthorizedAccount caller)
  else
    let claim := s.warrantyClaims claimId
    if claim.tokenId = 0 then .error .ClaimNotExist
    else if ¬(claim.processed = true ∧ claim.approved = true) then .error .ClaimNotApproved
    else if claim.serviceNotes.length ≠ 0 then .error .ServiceAlreadyRecorded
    else if serviceNotes.length = 0 then .error .ServiceNotesEmpty
    else .ok { s with
      warrantyClaims := mapUpd s.warrantyClaims claimId
        { claim with serviceNotes := serviceNotes } }

/-- `getProductDetails`: absence is detected via a zero manufacture
timestamp. -/
def getProductDetails (s : ContractState) (tokenId : Nat) :
    Except ContractError ProductDetails :=
  if (s.productDetails tokenId).manufactureTimestamp = 0 then .error .ProductNotRegistered
  else .ok (s.productDetails tokenId)

/-- `getWarrantyClaim`: absence is detected via a zero product id. -/
def getWarrantyClaim (s : ContractState) (claimId : Nat) :
    Except ContractError WarrantyClaim :=
  if (s.warrantyClaims claimId).tokenId = 0 then .error .ClaimNotExist
  else .ok (s.warrantyClaims claimId)

/-- `isWarrantyActive`: registered-product check, then the three-part
activity condition. -/
def isWarrantyActive (s : ContractState) (now : Nat) (tokenId : Nat) :
    Except ContractError Bool :=
  if (s.productDetails tokenId).manufactureTimestamp = 0 then .error .ProductNotRegistered
  else
    let product := s.productDetails tokenId
    .ok (decide (0 < product.warrantyStart) &&
         decide (now ≤ product.warrantyExpiration) &&
         decide (product.warrantyClaimCount < product.warrantyClaimLimit))

/-- AccessControl `grantRole`, admin gate included (every role is
administered by the default admin role). -/
def grantRole (s : ContractState) (caller : Address) (role : Role)
    (account : Address) : Except ContractError ContractState :=
  if hasRole s .DEFAULT_ADMIN caller = false then
    .error (.AccessControlUnauthorizedAccount caller)
  else .ok { s with roles := roleUpd s.roles role account true }

/-- AccessControl `revokeRole`, admin gate included. -/
def revokeRole (s : ContractState) (caller : Address) (role : Role)
    (account : Address) : Except ContractError ContractState :=
  if hasRole s .DEFAULT_ADMIN caller = false then
    .error (.AccessControlUnauthorizedAccount caller)
  else .ok { s with roles := roleUpd s.roles role account false }

/-- One externally-issued mutating command against the contract. -/
inductive Op where
  | register (caller initialOwner : Address) (serialNumber model : String)
      (warrantyDurationInSeconds claimLimit : Nat)
  | transfer (toAddr : Address) (tokenId : Nat)
  | submitClaim (caller : Address) (tokenId : Nat) (issueDescription : String)
  | processClaim (caller : Address) (claimId : Nat) (approved : Bool)
  | recordServiceOp (caller : Address) (claimId : Nat) (serviceNotes : String)
  | grantRoleOp (caller : Address) (role : Role) (account : Address)
  | revokeRoleOp (caller : Address) (role : Role) (account : Address)

/-- One transaction against the contract.  The `transfer` case follows the
public `transferFrom` path: null-receiver check, the nonexistent-token
check (done inside `_checkAuthorized`; the approval part of that check is
the external authorization layer and is assumed granted), then the
overridden `_update`. -/
def step (s : ContractState) (now : Nat) (op : Op) :
    Except ContractError ContractState :=
  match op with
  | .register caller initialOwner sn md dur lim =>
    match registerProduct s now caller initialOwner sn md dur lim with
    | .error e => .error e
    | .ok (s1, _) => .ok s1
  | .transfer toAddr tokenId =>
    if toAddr = 0 then .error (.ERC721InvalidReceiver 0)
    else if s.owners tokenId = 0 then .error (.ERC721NonexistentToken tokenId)
    else
      match _update s now toAddr tokenId with
      | .error e => .error e
      | .ok (s1, _) => .ok s1
  | .submitClaim caller tokenId desc =>
    match submitWarrantyClaim s now caller tokenId desc with
    | .error e => .error e
    | .ok (s1, _) => .ok s1
  | .processClaim caller claimId approved => processWarrantyClaim s now caller claimId approved
  | .recordServiceOp caller claimId notes => recordService s now caller claimId notes
  | .grantRoleOp caller role account => grantRole s caller role account
  | .revokeRoleOp caller role account => revokeRole s caller role account

/-- Value of a successful call, `none` on a revert. -/
def okValue {α : Type} : Except ContractError α → Option α
  | .ok a => some a
  | .error _ => none

/-- Whether a call succeeded. -/
def succeeds {α : Type} : Except ContractError α → Bool
  | .ok _ => true
  | .error _ => false

/-- Storage invariant of every reachable state: slots at or above the
respective counter are still at their Solidity default value. -/
def Inv (s : ContractState) : Prop :=
  (∀ id, s.tokenIdCounter ≤ id → s.productDetails id = emptyProduct ∧ s.owners id = 0) ∧
  (∀ cid, s.claimIdCounter ≤ cid → s.warrantyClaims cid = emptyClaim)

theorem inv_initialState (deployer : Address) : Inv (initialState deployer) :=
  ⟨fun _ _ => ⟨rfl, rfl⟩, fun _ _ => rfl⟩

/-! Concrete states used to instantiate the theorems below. -/

/-- Product 1 of the demo state: registered, warranty activated at 200
for duration 1000, one of two claim slots used. -/
def demoProduct1 : ProductDetails :=
  { serialNumber := "SN1", model := "M1", manufacturer := 7
    manufactureTimestamp := 100, warrantyDuration := 1000
    warrantyStart := 200, warrantyExpiration := 1200
    warrantyClaimLimit := 2, warrantyClaimCount := 1 }

/-- Product 2 of the demo state: registered, warranty not yet activated,
still held by the retailer. -/
def demoProduct2 : ProductDetails :=
  { serialNumber := "SN2", model := "M2", manufacturer := 7
    manufactureTimestamp := 100, warrantyDuration := 1000
    warrantyStart := 0, warrantyExpiration := 0
    warrantyClaimLimit := 2, warrantyClaimCount := 0 }

/-- Claim 1 of the demo state: processed and approved, not yet serviced. -/
def demoClaim1 : WarrantyClaim :=
  { tokenId := 1, customer := 20, issueDescription := "broken"
    submittedAt := 300, processed := true, approved := true
    serviceNotes := "", processedAt := 400 }

/-- Claim 2 of the demo state: submitted, not yet processed. -/
def demoClaim2 : WarrantyClaim :=
  { tokenId := 1, customer := 20, issueDescription := "again"
    submittedAt := 310, processed := false, approved := false
    serviceNotes := "", processedAt := 0 }

/-- A mid-life contract state: manufacturer 7 registered products 1
(owned by customer 20, warranty active) and 2 (owned by retailer 10,
warranty unset); claims 1 and 2 are against product 1. -/
def demoState : ContractState :=
  { tokenIdCounter := 3
    claimIdCounter := 3
    tokenIdForSerialHash := fun sn => if sn = "SN1" then 1 else if sn = "SN2" then 2 else 0
    productDetails := fun id =>
      if id = 1 then demoProduct1 else if id = 2 then demoProduct2 else emptyProduct
    warrantyClaims := fun cid =>
      if cid = 1 then demoClaim1 else if cid = 2 then demoClaim2 else emptyClaim
    owners := fun id => if id = 1 then 20 else if id = 2 then 10 else 0
    roles := fun r a =>
      decide ((r = .MANUFACTURER ∧ a = 7) ∨ (r = .RETAILER ∧ a = 10) ∨
        (r = .SERVICE_CENTER ∧ a = 30)) }

theorem inv_demoState : Inv demoState := by
  refine ⟨fun id h => ?_, fun cid h => ?_⟩
  · simp only [demoState] at h ⊢
    have h1 : id ≠ 1 := by omega
    have h2 : id ≠ 2 := by omega
    exact ⟨by simp [h1, h2], by simp [h1, h2]⟩
  · simp only [demoState] at h ⊢
    have h1 : cid ≠ 1 := by omega
    have h2 : cid ≠ 2 := by omega
    simp [h1, h2]

/-! Inversion lemmas: what a successful call tells us about the pre- and
post-states. -/

theorem registerProduct_ok_inv (s : ContractState) (now : Nat)
    (caller initialOwner : Address) (sn md : String) (dur lim : Nat)
    (s2 : ContractState) (nid : Nat)
    (h : registerProduct s now caller initialOwner sn md dur lim = .ok (s2, nid)) :
    nid = s.tokenIdCounter ∧
    s2.tokenIdCounter = s.tokenIdCounter + 1 ∧
    s2.claimIdCounter = s.claimIdCounter ∧
    s2.warrantyClaims = s.warrantyClaims ∧
    s2.productDetails = mapUpd s.productDetails s.tokenIdCounter
      { serialNumber := sn, model := md, manufacturer := caller
        manufactureTimestamp := now % UINT64, warrantyDuration := dur % UINT64
        warrantyStart := 0, warrantyExpiration := 0
        warrantyClaimLimit := lim % UINT32, warrantyClaimCount := 0 } ∧
    s2.owners = mapUpd s.owners s.tokenIdCounter initialOwner ∧
    s.owners s.tokenIdCounter = 0 := by
  simp only [registerProduct, _safeMint, _mint, _update, hasRole] at h
  by_cases hman : s.roles .MANUFACTURER caller = false
  · rw [if_pos hman] at h; exact Except.noConfusion h
  rw [if_neg hman] at h
  by_cases hsn : sn.length = 0
  · rw [if_pos hsn] at h; exact Except.noConfusion h
  rw [if_neg hsn] at h
  by_cases hdup : s.tokenIdForSerialHash sn ≠ 0
  · rw [if_pos hdup] at h; exact Except.noConfusion h
  rw [if_neg hdup] at h
  by_cases hz : initialOwner = 0
  · rw [if_pos hz] at h; exact Except.noConfusion h
  rw [if_neg hz] at h
  by_cases hret : s.roles .RETAILER initialOwner = false
  · rw [if_pos hret] at h; exact Except.noConfusion h
  rw [if_neg hret] at h
  by_cases hov : UINT256 ≤ s.tokenIdCounter + 1
  · rw [if_pos hov] at h; exact Except.noConfusion h
  rw [if_neg hov] at h
  rw [if_neg hz] at h
  rw [if_neg (fun hg => hret hg.2.2.1)] at h
  by_cases hprev : s.owners s.tokenIdCounter ≠ 0
  · simp [hprev] at h
  have hown : s.owners s.tokenIdCounter = 0 := not_not.mp hprev
  rw [hown] at h
  simp only [ne_eq, not_true_eq_false, if_neg (fun hc : (0 : Nat) ≠ 0 => hc rfl)] at h
  have h2 := Except.ok.inj h
  rw [Prod.ext_iff] at h2
  obtain ⟨hs2, hnid⟩ := h2
  subst hs2
  subst hnid
  exact ⟨rfl, rfl, rfl, rfl, rfl, rfl, hown⟩

theorem update_ok_inv (s : ContractState) (now : Nat) (toAddr : Address)
    (tokenId : Nat) (s' : ContractState) (prev : Address)
    (h : _update s now toAddr tokenId = .ok (s', prev)) :
    prev = s.owners tokenId ∧
    s'.tokenIdCounter = s.tokenIdCounter ∧
    s'.claimIdCounter = s.claimIdCounter ∧
    s'.warrantyClaims = s.warrantyClaims ∧
    s'.tokenIdForSerialHash = s.tokenIdForSerialHash ∧
    s'.roles = s.roles ∧
    s'.owners = mapUpd s.owners tokenId toAddr ∧
    (s'.productDetails = s.productDetails ∨
      ((s.productDetails tokenId).warrantyStart = 0 ∧
       s'.productDetails = mapUpd s.productDetails tokenId
         { s.productDetails tokenId with
           warrantyStart := now % UINT64
           warrantyExpiration :=
             (now + (s.productDetails tokenId).warrantyDuration) % UINT64 })) := by
  simp only [_update, _activateWarranty, hasRole] at h
  split at h
  next hguard =>
    rw [if_neg (fun hc => hc hguard.2.2.2.2)] at h
    by_cases hov : UINT256 ≤ now + (s.productDetails tokenId).warrantyDuration
    · rw [if_pos hov] at h; exact Except.noConfusion h
    rw [if_neg hov] at h
    have h2 := Except.ok.inj h
    rw [Prod.ext_iff] at h2
    obtain ⟨hs, hp⟩ := h2
    subst hs; subst hp
    exact ⟨rfl, rfl, rfl, rfl, rfl, rfl, rfl, Or.inr ⟨hguard.2.2.2.2, rfl⟩⟩
  next =>
    have h2 := Except.ok.inj h
    rw [Prod.ext_iff] at h2
    obtain ⟨hs, hp⟩ := h2
    subst hs; subst hp
    exact ⟨rfl, rfl, rfl, rfl, rfl, rfl, rfl, Or.inl rfl⟩

theorem submitClaim_ok_inv (s : ContractState) (now : Nat) (caller : Address)
    (tokenId : Nat) (desc : String) (s' : ContractState) (nid : Nat)
    (h : submitWarrantyClaim s now caller tokenId desc = .ok (s', nid)) :
    nid = s.claimIdCounter ∧
    s'.tokenIdCounter = s.tokenIdCounter ∧
    s'.claimIdCounter = s.claimIdCounter + 1 ∧
    s'.owners = s.owners ∧
    s'.roles = s.roles ∧
    s'.productDetails = mapUpd s.productDetails tokenId
      { s.productDetails tokenId with
        warrantyClaimCount := (s.productDetails tokenId).warrantyClaimCount + 1 } ∧
    s'.warrantyClaims = mapUpd s.warrantyClaims s.claimIdCounter
      { tokenId := tokenId, customer := s.owners tokenId
        issueDescription := desc, submittedAt := now % UINT64
        processed := false, approved := false
        serviceNotes := "", processedAt := 0 } ∧
    s.owners tokenId ≠ 0 := by
  by_cases hreg : s.owners tokenId = 0
  · simp [submitWarrantyClaim, ownerOf, hreg] at h
  have hown : ownerOf s tokenId = .ok (s.owners tokenId) := by simp [ownerOf, hreg]
  simp only [submitWarrantyClaim, hown] at h
  by_cases h0 : s.owners tokenId ≠ caller
  · rw [if_pos h0] at h; exact Except.noConfusion h
  rw [if_neg h0] at h
  by_cases h1 : (s.productDetails tokenId).warrantyStart = 0
  · rw [if_pos h1] at h; exact Except.noConfusion h
  rw [if_neg h1] at h
  by_cases h2 : (s.productDetails tokenId).warrantyExpiration < now
  · rw [if_pos h2] at h; exact Except.noConfusion h
  rw [if_neg h2] at h
  by_cases h3 : (s.productDetails tokenId).warrantyClaimLimit ≤
      (s.productDetails tokenId).warrantyClaimCount
  · rw [if_pos h3] at h; exact Except.noConfusion h
  rw [if_neg h3] at h
  by_cases h4 : desc.length = 0
  · rw [if_pos h4] at h; exact Except.noConfusion h
  rw [if_neg h4] at h
  by_cases h5 : UINT32 ≤ (s.productDetails tokenId).warrantyClaimCount + 1
  · rw [if_pos h5] at h; exact Except.noConfusion h
  rw [if_neg h5] at h
  by_cases h6 : UINT256 ≤ s.claimIdCounter + 1
  · rw [if_pos h6] at h; exact Except.noConfusion h
  rw [if_neg h6] at h
  have h7 := Except.ok.inj h
  rw [Prod.ext_iff] at h7
  obtain ⟨hs, hn⟩ := h7
  subst hs; subst hn
  exact ⟨rfl, rfl, rfl, rfl, rfl, rfl, rfl, hreg⟩

theorem processClaim_ok_inv (s : ContractState) (now : Nat) (caller : Address)
    (claimId : Nat) (approved : Bool) (s' : ContractState)
    (h : processWarrantyClaim s now caller claimId approved = .ok s') :
    (s.warrantyClaims claimId).tokenId ≠ 0 ∧
    (s.warrantyClaims claimId).processed = false ∧
    s' = { s with
      warrantyClaims := mapUpd s.warrantyClaims claimId
        { s.warrantyClaims claimId with
          processed := true, approved := approved, processedAt := now % UINT64 } } := by
  simp only [processWarrantyClaim, hasRole] at h
  by_cases hr : s.roles .SERVICE_CENTER caller = false
  · rw [if_pos hr] at h; exact Except.noConfusion h
  rw [if_neg hr] at h
  by_cases h0 : (s.warrantyClaims claimId).tokenId = 0
  · rw [if_pos h0] at h; exact Except.noConfusion h
  rw [if_neg h0] at h
  by_cases h1 : (s.warrantyClaims claimId).processed = true
  · rw [if_pos h1] at h; exact Except.noConfusion h
  rw [if_neg h1] at h
  refine ⟨h0, by simp at h1; exact h1, (Except.ok.inj h).symm⟩

theorem recordService_ok_inv (s : ContractState) (now : Nat) (caller : Address)
    (claimId : Nat) (notes : String) (s' : ContractState)
    (h : recordService s now caller claimId notes = .ok s') :
    (s.warrantyClaims claimId).tokenId ≠ 0 ∧
    (s.warrantyClaims claimId).processed = true ∧
    (s.warrantyClaims claimId).approved = true ∧
    (s.warrantyClaims claimId).serviceNotes.length = 0 ∧
    notes.length ≠ 0 ∧
    s' = { s with
      warrantyClaims := mapUpd s.warrantyClaims claimId
        { s.warrantyClaims claimId with serviceNotes := notes } } := by
  simp only [recordService, hasRole] at h
  by_cases hr : s.roles .SERVICE_CENTER caller = false
  · rw [if_pos hr] at h; exact Except.noConfusion h
  rw [if_neg hr] at h
  by_cases h0 : (s.warrantyClaims claimId).tokenId = 0
  · rw [if_pos h0] at h; exact Except.noConfusion h
  rw [if_neg h0] at h
  by_cases h1 : ¬((s.warrantyClaims claimId).processed = true ∧
      (s.warrantyClaims claimId).approved = true)
  · rw [if_pos h1] at h; exact Except.noConfusion h
  rw [if_neg h1] at h
  by_cases h2 : (s.warrantyClaims claimId).serviceNotes.length ≠ 0
  · rw [if_pos h2] at h; exact Except.noConfusion h
  rw [if_neg h2] at h
  by_cases h3 : notes.length = 0
  · rw [if_pos h3] at h; exact Except.noConfusion h
  rw [if_neg h3] at h
  have hpa := not_not.mp h1
  exact ⟨h0, hpa.1, hpa.2, not_not.mp h2, h3, (Except.ok.inj h).symm⟩

theorem grantRole_ok_inv (s : ContractState) (caller : Address) (role : Role)
    (account : Address) (s' : ContractState)
    (h : grantRole s caller role account = .ok s') :
    s' = { s with roles := roleUpd s.roles role account true } := by
  simp only [grantRole, hasRole] at h
  by_cases hr : s.roles .DEFAULT_ADMIN caller = false
  · rw [if_pos hr] at h; exact Except.noConfusion h
  rw [if_neg hr] at h
  exact (Except.ok.inj h).symm

theorem revokeRole_ok_inv (s : ContractState) (caller : Address) (role : Role)
    (account : Address) (s' : ContractState)
    (h : revokeRole s caller role account = .ok s') :
    s' = { s with roles := roleUpd s.roles role account false } := by
  simp only [revokeRole, hasRole] at h
  by_cases hr : s.roles .DEFAULT_ADMIN caller = false
  · rw [if_pos hr] at h; exact Except.noConfusion h
  rw [if_neg hr] at h
  exact (Except.ok.inj h).symm

/-- Every transaction preserves the storage invariant, so `Inv` holds in
every state reachable from `initialState`. -/
theorem step_preserves_Inv (s : ContractState) (now : Nat) (op : Op)
    (s' : ContractState) (hInv : Inv s) (hstep : step s now op = .ok s') :
    Inv s' := by
  obtain ⟨hTok, hCl⟩ := hInv
  cases op with
  | register caller initialOwner sn md dur lim =>
    simp only [step] at hstep
    cases hreg : registerProduct s now caller initialOwner sn md dur lim with
    | error e => rw [hreg] at hstep; exact Except.noConfusion hstep
    | ok p =>
      obtain ⟨s1, nid⟩ := p
      rw [hreg] at hstep
      have hs1 : s1 = s' := by simpa using hstep
      subst hs1
      obtain ⟨-, h2, h3, h4, h5, h6, -⟩ :=
        registerProduct_ok_inv s now caller initialOwner sn md dur lim s1 nid hreg
      refine ⟨fun id hid => ?_, fun cid hcid => ?_⟩
      · rw [h2] at hid
        have hne : id ≠ s.tokenIdCounter := by omega
        have hle : s.tokenIdCounter ≤ id := by omega
        constructor
        · rw [h5]; simp only [mapUpd]; rw [if_neg hne]; exact (hTok id hle).1
        · rw [h6]; simp only [mapUpd]; rw [if_neg hne]; exact (hTok id hle).2
      · rw [h3] at hcid
        rw [h4]
        exact hCl cid hcid
  | transfer toAddr tokenId =>
    simp only [step] at hstep
    by_cases hz : toAddr = 0
    · rw [if_pos hz] at hstep; exact Except.noConfusion hstep
    rw [if_neg hz] at hstep
    by_cases hnon : s.owners tokenId = 0
    · rw [if_pos hnon] at hstep; exact Except.noConfusion hstep
    rw [if_neg hnon] at hstep
    cases hupd : _update s now toAddr tokenId with
    | error e => rw [hupd] at hstep; exact Except.noConfusion hstep
    | ok p =>
      obtain ⟨s1, prev⟩ := p
      rw [hupd] at hstep
      have hs1 : s1 = s' := by simpa using hstep
      subst hs1
      obtain ⟨-, h2, h3, h4, -, -, h7, h8⟩ := update_ok_inv s now toAddr tokenId s1 prev hupd
      have htid : ¬ s.tokenIdCounter ≤ tokenId := fun hle => hnon (hTok tokenId hle).2
      refine ⟨fun id hid => ?_, fun cid hcid => ?_⟩
      · rw [h2] at hid
        have hne : id ≠ tokenId := by omega
        constructor
        · cases h8 with
          | inl hsame => rw [hsame]; exact (hTok id hid).1
          | inr hact =>
            rw [hact.2]; simp only [mapUpd]; rw [if_neg hne]; exact (hTok id hid).1
        · rw [h7]; simp only [mapUpd]; rw [if_neg hne]; exact (hTok id hid).2
      · rw [h3] at hcid; rw [h4]; exact hCl cid hcid
  | submitClaim caller tokenId desc =>
    simp only [step] at hstep
    cases hsub : submitWarrantyClaim s now caller tokenId desc with
    | error e => rw [hsub] at hstep; exact Except.noConfusion hstep
    | ok p =>
      obtain ⟨s1, nid⟩ := p
      rw [hsub] at hstep
      have hs1 : s1 = s' := by simpa using hstep
      subst hs1
      obtain ⟨-, h2, h3, h4, -, h6, h7, h8⟩ :=
        submitClaim_ok_inv s now caller tokenId desc s1 nid hsub
      have htid : ¬ s.tokenIdCounter ≤ tokenId := fun hle => h8 (hTok tokenId hle).2
      refine ⟨fun id hid => ?_, fun cid hcid => ?_⟩
      · rw [h2] at hid
        have hne : id ≠ tokenId := by omega
        constructor
        · rw [h6]; simp only [mapUpd]; rw [if_neg hne]; exact (hTok id hid).1
        · rw [h4]; exact (hTok id hid).2
      · rw [h3] at hcid
        have hne : cid ≠ s.claimIdCounter := by omega
        rw [h7]; simp only [mapUpd]; rw [if_neg hne]
        exact hCl cid (by omega)
  | processClaim caller claimId approved =>
    simp only [step] at hstep
    obtain ⟨h0, -, h2⟩ := processClaim_ok_inv s now caller claimId approved s' hstep
    subst h2
    have hlt : ¬ s.claimIdCounter ≤ claimId :=
      fun hle => h0 (by rw [hCl claimId hle]; rfl)
    refine ⟨fun id hid => hTok id hid, fun cid hcid => ?_⟩
    have hcid2 : s.claimIdCounter ≤ cid := hcid
    simp only [mapUpd]
    rw [if_neg (show cid ≠ claimId by omega)]
    exact hCl cid hcid2
  | recordServiceOp caller claimId notes =>
    simp only [step] at hstep
    obtain ⟨h0, -, -, -, -, h5⟩ := recordService_ok_inv s now caller claimId notes s' hstep
    subst h5
    have hlt : ¬ s.claimIdCounter ≤ claimId :=
      fun hle => h0 (by rw [hCl claimId hle]; rfl)
    refine ⟨fun id hid => hTok id hid, fun cid hcid => ?_⟩
    have hcid2 : s.claimIdCounter ≤ cid := hcid
    simp only [mapUpd]
    rw [if_neg (show cid ≠ claimId by omega)]
    exact hCl cid hcid2
  | grantRoleOp caller role account =>
    simp only [step] at hstep
    have h := grantRole_ok_inv s caller role account s' hstep
    subst h
    exact ⟨hTok, hCl⟩
  | revokeRoleOp caller role account =>
    simp only [step] at hstep
    have h := revokeRole_ok_inv s caller role account s' hstep
    subst h
    exact ⟨hTok, hCl⟩

/-! Claims -/

/-- State of the C1 counterexample: like `demoState`, but the activated
product 1 is held by retailer 10 again. -/
def c1State : ContractState :=
  { demoState with owners := mapUpd demoState.owners 1 10 }

/-- C1 (counterexample): in `c1State`, product 1 has an activated
warranty (`warrantyStart = 200`) and is held by retailer 10;
transferring it to non-retailer 20 — exactly the activation pattern —
does NOT fail with `WarrantyAlreadyActivated`: the transfer completes
and the warranty fields are left unchanged, because the activation guard
in `_update` itself requires `warrantyStart == 0`, so the defensive
revert in `_activateWarranty` is never reached from a transfer. -/
theorem activated_pattern_transfer_completes_cex :
    hasRole c1State .RETAILER (c1State.owners 1) = true ∧
    hasRole c1State .RETAILER 20 = false ∧
    (c1State.productDetails 1).warrantyStart = 200 ∧
    _update c1State 400 20 1 =
      .ok ({ c1State with owners := mapUpd c1State.owners 1 20 }, 10) ∧
    _update c1State 400 20 1 ≠ .error .WarrantyAlreadyActivated := by
  have heq : _update c1State 400 20 1 =
      .ok ({ c1State with owners := mapUpd c1State.owners 1 20 }, 10) := by rfl
  refine ⟨by decide, by decide, by decide, heq, ?_⟩
  intro hc
  rw [heq] at hc
  exact Except.noConfusion hc

/-- C1 (amended): a transfer of a record whose warranty is already
activated — the activation pattern included — completes with the
warranty fields untouched, because the guard in `_update` requires
`warrantyStart == 0`; a direct `_activateWarranty` on such a record does
fail with `WarrantyAlreadyActivated`, so activation occurs at most once
per record. -/
theorem activated_record_transfer_keeps_warranty (s : ContractState)
    (now : Nat) (toAddr : Address) (tokenId : Nat) (customer : Address)
    (h : (s.productDetails tokenId).warrantyStart ≠ 0) :
    _update s now toAddr tokenId =
      .ok ({ s with owners := mapUpd s.owners tokenId toAddr }, s.owners tokenId) ∧
    _activateWarranty s now tokenId customer = .error .WarrantyAlreadyActivated := by
  constructor
  · simp only [_update]
    rw [if_neg (fun hg => h hg.2.2.2.2)]
  · simp only [_activateWarranty]
    rw [if_pos h]

/-- Witness for C1's amended theorem at the counterexample state. -/
theorem activated_record_transfer_keeps_warranty_witness :
    _update c1State 400 20 1 =
      .ok ({ c1State with owners := mapUpd c1State.owners 1 20 }, c1State.owners 1) ∧
    _activateWarranty c1State 400 1 20 = .error .WarrantyAlreadyActivated :=
  activated_record_transfer_keeps_warranty c1State 400 20 1 20 (by decide)

/-- C2: for every transfer of a registered (owner-held) record, warranty
activation happens exactly when the sender holds RETAILER, the recipient
does not, the recipient is non-null and `warrantyStart` is still 0; any
other transfer leaves `warrantyStart` and `warrantyExpiration`
unchanged, and the minting-time assignment of a successful registration
leaves them at 0. -/
theorem warranty_activation_iff_retail_exit (s : ContractState) (now : Nat)
    (toAddr : Address) (tokenId : Nat)
    (hfrom : s.owners tokenId ≠ 0) :
    (hasRole s .RETAILER (s.owners tokenId) = true →
      hasRole s .RETAILER toAddr = false →
      toAddr ≠ 0 →
      (s.productDetails tokenId).warrantyStart = 0 →
      now + (s.productDetails tokenId).warrantyDuration < UINT256 →
      _update s now toAddr tokenId = .ok ({ s with
          owners := mapUpd s.owners tokenId toAddr
          productDetails := mapUpd s.productDetails tokenId
            { s.productDetails tokenId with
              warrantyStart := now % UINT64
              warrantyExpiration :=
                (now + (s.productDetails tokenId).warrantyDuration) % UINT64 } },
        s.owners tokenId)) ∧
    (¬(hasRole s .RETAILER (s.owners tokenId) = true ∧
        hasRole s .RETAILER toAddr = false ∧ toAddr ≠ 0 ∧
        (s.productDetails tokenId).warrantyStart = 0) →
      _update s now toAddr tokenId =
        .ok ({ s with owners := mapUpd s.owners tokenId toAddr }, s.owners tokenId)) ∧
    (∀ (caller initialOwner : Address) (sn md : String) (dur lim : Nat)
        (s2 : ContractState) (nid : Nat),
      registerProduct s now caller initialOwner sn md dur lim = .ok (s2, nid) →
      (s2.productDetails nid).warrantyStart = 0 ∧
      (s2.productDetails nid).warrantyExpiration = 0) := by
  refine ⟨fun h1 h2 h3 h4 h5 => ?_, fun hng => ?_,
    fun caller io sn md dur lim s2 nid hreg => ?_⟩
  · simp only [_update, _activateWarranty, hasRole] at *
    rw [if_pos ⟨hfrom, h1, h2, h3, h4⟩]
    rw [if_neg (fun hc => hc h4)]
    rw [if_neg (not_le.mpr h5)]
  · simp only [_update, hasRole] at *
    rw [if_neg (fun hg => hng ⟨hg.2.1, hg.2.2.1, hg.2.2.2.1, hg.2.2.2.2⟩)]
  · obtain ⟨hnid, -, -, -, h5, -, -⟩ :=
      registerProduct_ok_inv s now caller io sn md dur lim s2 nid hreg
    subst hnid
    rw [h5]
    constructor <;> simp [mapUpd]

/-- Witness for C2 on the demo state: retailer 10 handing product 2 to
customer 20 activates the warranty with the expected fields. -/
theorem warranty_activation_iff_retail_exit_witness :
    _update demoState 500 20 2 = .ok ({ demoState with
        owners := mapUpd demoState.owners 2 20
        productDetails := mapUpd demoState.productDetails 2
          { demoState.productDetails 2 with
            warrantyStart := 500 % UINT64
            warrantyExpiration :=
              (500 + (demoState.productDetails 2).warrantyDuration) % UINT64 } },
      demoState.owners 2) :=
  (warranty_activation_iff_retail_exit demoState 500 20 2 (by decide)).1
    (by decide) (by decide) (by decide) (by decide) (by decide)

/-- C3: `isWarrantyActive` fails with `ProductNotRegistered` when the
record is absent; otherwise it returns `true` iff `warrantyStart > 0`
and `now ≤ warrantyExpiration` and `warrantyClaimCount <
warrantyClaimLimit`; in particular it returns `false` as soon as the
claim count has reached the claim limit, even while `now ≤
warrantyExpiration`. -/
theorem isWarrantyActive_spec (s : ContractState) (now tokenId : Nat) :
    ((s.productDetails tokenId).manufactureTimestamp = 0 →
      isWarrantyActive s now tokenId = .error .ProductNotRegistered) ∧
    ((s.productDetails tokenId).manufactureTimestamp ≠ 0 →
      (isWarrantyActive s now tokenId = .ok true ↔
        0 < (s.productDetails tokenId).warrantyStart ∧
        now ≤ (s.productDetails tokenId).warrantyExpiration ∧
        (s.productDetails tokenId).warrantyClaimCount <
          (s.productDetails tokenId).warrantyClaimLimit)) ∧
    ((s.productDetails tokenId).manufactureTimestamp ≠ 0 →
      (s.productDetails tokenId).warrantyClaimLimit ≤
        (s.productDetails tokenId).warrantyClaimCount →
      isWarrantyActive s now tokenId = .ok false) := by
  refine ⟨fun h => by simp [isWarrantyActive, h], fun h => ?_, fun h hle => ?_⟩
  · simp [isWarrantyActive, h, and_assoc]
  · simp [isWarrantyActive, h]
    omega

/-- Witness for C3 on the demo state: product 1 has used both claim
slots once one more claim is counted; with the count at the limit the
query returns `false` even before expiration, and an unregistered id
fails with `ProductNotRegistered`. -/
theorem isWarrantyActive_spec_witness :
    isWarrantyActive demoState 300 1 = .ok true ∧
    isWarrantyActive demoState 9 9 = .error .ProductNotRegistered :=
  ⟨((isWarrantyActive_spec demoState 300 1).2.1 (by decide)).mpr (by decide),
   (isWarrantyActive_spec demoState 9 9).1 (by decide)⟩

/-- C10: on a product id that was never registered (no owner recorded),
`submitWarrantyClaim` fails with the inherited ERC721 nonexistent-token
error raised by the `ownerOf` lookup, not with `NotOwner` (and, the call
having reverted, stores nothing). -/
theorem submitClaim_unregistered_erc721_error (s : ContractState) (now : Nat)
    (caller : Address) (tokenId : Nat) (desc : String)
    (h : s.owners tokenId = 0) :
    submitWarrantyClaim s now caller tokenId desc =
      .error (.ERC721NonexistentToken tokenId) ∧
    submitWarrantyClaim s now caller tokenId desc ≠ .error .NotOwner := by
  have hown : ownerOf s tokenId = .error (.ERC721NonexistentToken tokenId) := by
    simp [ownerOf, h]
  refine ⟨by simp [submitWarrantyClaim, hown], by simp [submitWarrantyClaim, hown]⟩

/-- Witness for C10: claiming against the never-registered id 7 of a
fresh contract fails with the ERC721 nonexistent-token error. -/
theorem submitClaim_unregistered_erc721_error_witness :
    submitWarrantyClaim (initialState 1) 0 5 7 "x" =
      .error (.ERC721NonexistentToken 7) ∧
    submitWarrantyClaim (initialState 1) 0 5 7 "x" ≠ .error .NotOwner :=
  submitClaim_unregistered_erc721_error (initialState 1) 0 5 7 "x" (by decide)

/-- C5: for a caller holding the MANUFACTURER role, `registerProduct`
checks its preconditions in order — empty serial, duplicate serial hash,
null initial owner, initial owner not a retailer — failing with the
corresponding error, the first failure winning; when all hold (and the
fresh id slot is indeed unowned, as in every reachable state) a record
with zeroed warranty fields is stored, ownership goes to the initial
owner, and the new id is returned. -/
theorem registerProduct_check_order (s : ContractState) (now : Nat)
    (caller initialOwner : Address) (sn md : String) (dur lim : Nat)
    (hrole : hasRole s .MANUFACTURER caller = true) :
    (sn.length = 0 →
      registerProduct s now caller initialOwner sn md dur lim =
        .error (.SerialNumberEmpty "serialnumber empty")) ∧
    (sn.length ≠ 0 → s.tokenIdForSerialHash sn ≠ 0 →
      registerProduct s now caller initialOwner sn md dur lim =
        .error (.SerialNumberExists "serialnumber already exists")) ∧
    (sn.length ≠ 0 → s.tokenIdForSerialHash sn = 0 → initialOwner = 0 →
      registerProduct s now caller initialOwner sn md dur lim =
        .error (.ZeroAddress "address equals to zero")) ∧
    (sn.length ≠ 0 → s.tokenIdForSerialHash sn = 0 → initialOwner ≠ 0 →
      hasRole s .RETAILER initialOwner = false →
      registerProduct s now caller initialOwner sn md dur lim =
        .error (.NotRetailer "not retailer")) ∧
    (sn.length ≠ 0 → s.tokenIdForSerialHash sn = 0 → initialOwner ≠ 0 →
      hasRole s .RETAILER initialOwner = true →
      s.tokenIdCounter + 1 < UINT256 →
      s.owners s.tokenIdCounter = 0 →
      ∃ s2, registerProduct s now caller initialOwner sn md dur lim =
          .ok (s2, s.tokenIdCounter) ∧
        (s2.productDetails s.tokenIdCounter).warrantyStart = 0 ∧
        (s2.productDetails s.tokenIdCounter).warrantyExpiration = 0 ∧
        (s2.productDetails s.tokenIdCounter).warrantyClaimCount = 0 ∧
        s2.owners s.tokenIdCounter = initialOwner ∧
        s2.tokenIdCounter = s.tokenIdCounter + 1) := by
  refine ⟨fun h0 => by simp [registerProduct, hrole, h0],
    fun h0 h1 => by simp [registerProduct, hrole, h0, h1],
    fun h0 h1 h2 => by simp [registerProduct, hrole, h0, h1, h2],
    fun h0 h1 h2 h3 => by simp [registerProduct, hrole, h0, h1, h2, h3],
    fun h0 h1 h2 h3 h4 h5 => ?_⟩
  have hne : ¬ UINT256 ≤ s.tokenIdCounter + 1 := not_le.mpr h4
  refine ⟨{ s with
      tokenIdCounter := s.tokenIdCounter + 1
      productDetails := mapUpd s.productDetails s.tokenIdCounter
        { serialNumber := sn, model := md, manufacturer := caller
          manufactureTimestamp := now % UINT64, warrantyDuration := dur % UINT64
          warrantyStart := 0, warrantyExpiration := 0
          warrantyClaimLimit := lim % UINT32, warrantyClaimCount := 0 }
      tokenIdForSerialHash := serialUpd s.tokenIdForSerialHash sn s.tokenIdCounter
      owners := mapUpd s.owners s.tokenIdCounter initialOwner },
    ?_, by simp [mapUpd], by simp [mapUpd], by simp [mapUpd], by simp [mapUpd], rfl⟩
  simp only [hasRole] at hrole h3
  simp [registerProduct, _safeMint, _mint, _update, hasRole, hrole, h0, h1, h2, h3, h5, hne]

/-- Witness for C5: on the demo state, manufacturer 7 registering with an
empty serial fails with `SerialNumberEmpty`, and registering to
non-retailer 9 fails with `NotRetailer`. -/
theorem registerProduct_check_order_witness :
    registerProduct demoState 500 7 10 "" "M3" 1000 2 =
      .error (.SerialNumberEmpty "serialnumber empty") ∧
    registerProduct demoState 500 7 9 "SN3" "M3" 1000 2 =
      .error (.NotRetailer "not retailer") :=
  ⟨(registerProduct_check_order demoState 500 7 10 "" "M3" 1000 2 (by decide)).1 rfl,
   (registerProduct_check_order demoState 500 7 9 "SN3" "M3" 1000 2
      (by decide)).2.2.2.1 (by decide) (by decide) (by decide) (by decide)⟩

/-- C6: on a registered product, `submitWarrantyClaim` checks its
preconditions in order — caller not the owner, warranty not activated,
warranty expired, claim limit reached, empty issue description — failing
with the corresponding error, the first failure winning; when all hold
the claim count is incremented and a fresh, unprocessed claim recording
the current owner as customer is stored under the next claim id. -/
theorem submitWarrantyClaim_check_order (s : ContractState) (now : Nat)
    (caller : Address) (tokenId : Nat) (desc : String)
    (hreg : s.owners tokenId ≠ 0) :
    (s.owners tokenId ≠ caller →
      submitWarrantyClaim s now caller tokenId desc = .error .NotOwner) ∧
    (s.owners tokenId = caller →
      (s.productDetails tokenId).warrantyStart = 0 →
      submitWarrantyClaim s now caller tokenId desc = .error .WarrantyNotActivated) ∧
    (s.owners tokenId = caller →
      (s.productDetails tokenId).warrantyStart ≠ 0 →
      (s.productDetails tokenId).warrantyExpiration < now →
      submitWarrantyClaim s now caller tokenId desc = .error .WarrantyExpired) ∧
    (s.owners tokenId = caller →
      (s.productDetails tokenId).warrantyStart ≠ 0 →
      now ≤ (s.productDetails tokenId).warrantyExpiration →
      (s.productDetails tokenId).warrantyClaimLimit ≤
        (s.productDetails tokenId).warrantyClaimCount →
      submitWarrantyClaim s now caller tokenId desc = .error .ClaimLimitReached) ∧
    (s.owners tokenId = caller →
      (s.productDetails tokenId).warrantyStart ≠ 0 →
      now ≤ (s.productDetails tokenId).warrantyExpiration →
      (s.productDetails tokenId).warrantyClaimCount <
        (s.productDetails tokenId).warrantyClaimLimit →
      desc.length = 0 →
      submitWarrantyClaim s now caller tokenId desc = .error .IssueDescriptionEmpty) ∧
    (s.owners tokenId = caller →
      (s.productDetails tokenId).warrantyStart ≠ 0 →
      now ≤ (s.productDetails tokenId).warrantyExpiration →
      (s.productDetails tokenId).warrantyClaimCount <
        (s.productDetails tokenId).warrantyClaimLimit →
      desc.length ≠ 0 →
      (s.productDetails tokenId).warrantyClaimLimit < UINT32 →
      s.claimIdCounter + 1 < UINT256 →
      ∃ s2, submitWarrantyClaim s now caller tokenId desc =
          .ok (s2, s.claimIdCounter) ∧
        (s2.productDetails tokenId).warrantyClaimCount =
          (s.productDetails tokenId).warrantyClaimCount + 1 ∧
        s2.warrantyClaims s.claimIdCounter =
          { tokenId := tokenId, customer := s.owners tokenId
            issueDescription := desc, submittedAt := now % UINT64
            processed := false, approved := false
            serviceNotes := "", processedAt := 0 } ∧
        s2.claimIdCounter = s.claimIdCounter + 1) := by
  have hown : ownerOf s tokenId = .ok (s.owners tokenId) := by simp [ownerOf, hreg]
  refine ⟨fun h0 => by simp [submitWarrantyClaim, hown, h0],
    fun h0 h1 => by simp [submitWarrantyClaim, hown, h0, h1],
    fun h0 h1 h2 => by
      simp [submitWarrantyClaim, hown, h0, h1, h2, not_le.mp (not_le.mpr h2)],
    fun h0 h1 h2 h3 => by
      simp [submitWarrantyClaim, hown, h0, h1, not_lt.mpr h2, h3, not_lt.mp (not_lt.mpr h3)],
    fun h0 h1 h2 h3 h4 => by
      simp [submitWarrantyClaim, hown, h0, h1, not_lt.mpr h2, not_le.mpr h3, h4],
    fun h0 h1 h2 h3 h4 h5 h6 => ?_⟩
  have hc32 : ¬ UINT32 ≤ (s.productDetails tokenId).warrantyClaimCount + 1 :=
    not_le.mpr (Nat.lt_of_le_of_lt (Nat.succ_le_of_lt h3) h5)
  have hc256 : ¬ UINT256 ≤ s.claimIdCounter + 1 := not_le.mpr h6
  refine ⟨{ s with
      claimIdCounter := s.claimIdCounter + 1
      productDetails := mapUpd s.productDetails tokenId
        { s.productDetails tokenId with
          warrantyClaimCount := (s.productDetails tokenId).warrantyClaimCount + 1 }
      warrantyClaims := mapUpd s.warrantyClaims s.claimIdCounter
        { tokenId := tokenId, customer := s.owners tokenId
          issueDescription := desc, submittedAt := now % UINT64
          processed := false, approved := false
          serviceNotes := "", processedAt := 0 } },
    ?_, by simp [mapUpd], by simp [mapUpd], rfl⟩
  simp [submitWarrantyClaim, hown, h0, h1, not_lt.mpr h2, not_le.mpr h3, h4, hc32, hc256]

/-- Witness for C6 on the demo state: a stranger claiming on product 1
fails with `NotOwner`; its owner claiming on the unactivated product 2
is impossible, and claiming after expiration fails with
`WarrantyExpired`. -/
theorem submitWarrantyClaim_check_order_witness :
    submitWarrantyClaim demoState 300 5 1 "x" = .error .NotOwner ∧
    submitWarrantyClaim demoState 300 10 2 "x" = .error .WarrantyNotActivated ∧
    submitWarrantyClaim demoState 5000 20 1 "x" = .error .WarrantyExpired :=
  ⟨(submitWarrantyClaim_check_order demoState 300 5 1 "x" (by decide)).1 (by decide),
   (submitWarrantyClaim_check_order demoState 300 10 2 "x" (by decide)).2.1 rfl rfl,
   (submitWarrantyClaim_check_order demoState 5000 20 1 "x"
      (by decide)).2.2.1 rfl (by decide) (by decide)⟩

/-- C7: for a caller holding the SERVICE_CENTER role, `recordService`
checks its preconditions in order — claim missing, claim not both
processed and approved, notes already recorded, incoming notes empty —
failing with the corresponding error, the first failure winning; in
particular an unprocessed or rejected claim always fails with
`ClaimNotApproved`. -/
theorem recordService_check_order (s : ContractState) (now : Nat)
    (caller : Address) (claimId : Nat) (notes : String)
    (hrole : hasRole s .SERVICE_CENTER caller = true) :
    ((s.warrantyClaims claimId).tokenId = 0 →
      recordService s now caller claimId notes = .error .ClaimNotExist) ∧
    ((s.warrantyClaims claimId).tokenId ≠ 0 →
      ¬((s.warrantyClaims claimId).processed = true ∧
        (s.warrantyClaims claimId).approved = true) →
      recordService s now caller claimId notes = .error .ClaimNotApproved) ∧
    ((s.warrantyClaims claimId).tokenId ≠ 0 →
      (s.warrantyClaims claimId).processed = true →
      (s.warrantyClaims claimId).approved = true →
      (s.warrantyClaims claimId).serviceNotes.length ≠ 0 →
      recordService s now caller claimId notes = .error .ServiceAlreadyRecorded) ∧
    ((s.warrantyClaims claimId).tokenId ≠ 0 →
      (s.warrantyClaims claimId).processed = true →
      (s.warrantyClaims claimId).approved = true →
      (s.warrantyClaims claimId).serviceNotes.length = 0 →
      notes.length = 0 →
      recordService s now caller claimId notes = .error .ServiceNotesEmpty) ∧
    ((s.warrantyClaims claimId).tokenId ≠ 0 →
      (s.warrantyClaims claimId).processed = true →
      (s.warrantyClaims claimId).approved = true →
      (s.warrantyClaims claimId).serviceNotes.length = 0 →
      notes.length ≠ 0 →
      recordService s now caller claimId notes = .ok { s with
        warrantyClaims := mapUpd s.warrantyClaims claimId
          { s.warrantyClaims claimId with serviceNotes := notes } }) := by
  refine ⟨fun h0 => by simp [recordService, hrole, h0],
    fun h0 h1 => by simp [recordService, hrole, h0, h1],
    fun h0 h1 h2 h3 => by simp [recordService, hrole, h0, h1, h2, h3],
    fun h0 h1 h2 h3 h4 => by simp [recordService, hrole, h0, h1, h2, h3, h4],
    fun h0 h1 h2 h3 h4 => by simp [recordService, hrole, h0, h1, h2, h3, h4]⟩

/-- The state after the first successful registration on a fresh
contract deployed by principal 1. -/
def c4Post : ContractState := { initialState 1 with
  tokenIdCounter := 2
  tokenIdForSerialHash := serialUpd (initialState 1).tokenIdForSerialHash "SN" 1
  productDetails := mapUpd (initialState 1).productDetails 1
    { serialNumber := "SN", model := "M", manufacturer := 1
      manufactureTimestamp := 0, warrantyDuration := 100
      warrantyStart := 0, warrantyExpiration := 0
      warrantyClaimLimit := 2, warrantyClaimCount := 0 }
  owners := mapUpd (initialState 1).owners 1 1 }

/-- C4: record and claim ids start at 1; each successful registration or
claim submission returns the current counter value and bumps that
counter by exactly one (so ids are strictly increasing and never
reused), no transaction ever decreases either counter, and a failed
registration allocates no id — after an empty-serial failure the next
valid registration still receives id 1. -/
theorem id_counters_monotone_from_one :
    (∀ deployer : Address, (initialState deployer).tokenIdCounter = 1 ∧
      (initialState deployer).claimIdCounter = 1) ∧
    (∀ (s : ContractState) (now : Nat) (caller initialOwner : Address)
        (sn md : String) (dur lim : Nat) (s2 : ContractState) (nid : Nat),
      registerProduct s now caller initialOwner sn md dur lim = .ok (s2, nid) →
      nid = s.tokenIdCounter ∧ s2.tokenIdCounter = s.tokenIdCounter + 1 ∧
        s2.claimIdCounter = s.claimIdCounter) ∧
    (∀ (s : ContractState) (now : Nat) (caller : Address) (tokenId : Nat)
        (desc : String) (s2 : ContractState) (nid : Nat),
      submitWarrantyClaim s now caller tokenId desc = .ok (s2, nid) →
      nid = s.claimIdCounter ∧ s2.claimIdCounter = s.claimIdCounter + 1 ∧
        s2.tokenIdCounter = s.tokenIdCounter) ∧
    (∀ (s : ContractState) (now : Nat) (op : Op) (s2 : ContractState),
      step s now op = .ok s2 →
      s.tokenIdCounter ≤ s2.tokenIdCounter ∧ s.claimIdCounter ≤ s2.claimIdCounter) ∧
    (registerProduct (initialState 1) 0 1 1 "" "M" 100 2 =
        .error (.SerialNumberEmpty "serialnumber empty") ∧
      registerProduct (initialState 1) 0 1 1 "SN" "M" 100 2 = .ok (c4Post, 1)) := by
  refine ⟨fun d => ⟨rfl, rfl⟩, ?_, ?_, ?_, by rfl, by rfl⟩
  · intro s now caller io sn md dur lim s2 nid h
    obtain ⟨h1, h2, h3, -, -, -, -⟩ :=
      registerProduct_ok_inv s now caller io sn md dur lim s2 nid h
    exact ⟨h1, h2, h3⟩
  · intro s now caller tokenId desc s2 nid h
    obtain ⟨h1, h2, h3, -, -, -, -, -⟩ :=
      submitClaim_ok_inv s now caller tokenId desc s2 nid h
    exact ⟨h1, h3, h2⟩
  · intro s now op s2 hstep
    cases op with
    | register caller io sn md dur lim =>
      simp only [step] at hstep
      cases hreg : registerProduct s now caller io sn md dur lim with
      | error e => rw [hreg] at hstep; exact Except.noConfusion hstep
      | ok p =>
        obtain ⟨s1, nid⟩ := p
        rw [hreg] at hstep
        have hs1 : s1 = s2 := by simpa using hstep
        subst hs1
        obtain ⟨-, h2, h3, -, -, -, -⟩ :=
          registerProduct_ok_inv s now caller io sn md dur lim s1 nid hreg
        omega
    | transfer toAddr tokenId =>
      simp only [step] at hstep
      by_cases hz : toAddr = 0
      · rw [if_pos hz] at hstep; exact Except.noConfusion hstep
      rw [if_neg hz] at hstep
      by_cases hnon : s.owners tokenId = 0
      · rw [if_pos hnon] at hstep; exact Except.noConfusion hstep
      rw [if_neg hnon] at hstep
      cases hupd : _update s now toAddr tokenId with
      | error e => rw [hupd] at hstep; exact Except.noConfusion hstep
      | ok p =>
        obtain ⟨s1, prev⟩ := p
        rw [hupd] at hstep
        have hs1 : s1 = s2 := by simpa using hstep
        subst hs1
        obtain ⟨-, h2, h3, -, -, -, -, -⟩ := update_ok_inv s now toAddr tokenId s1 prev hupd
        omega
    | submitClaim caller tokenId desc =>
      simp only [step] at hstep
      cases hsub : submitWarrantyClaim s now caller tokenId desc with
      | error e => rw [hsub] at hstep; exact Except.noConfusion hstep
      | ok p =>
        obtain ⟨s1, nid⟩ := p
        rw [hsub] at hstep
        have hs1 : s1 = s2 := by simpa using hstep
        subst hs1
        obtain ⟨-, h2, h3, -, -, -, -, -⟩ :=
          submitClaim_ok_inv s now caller tokenId desc s1 nid hsub
        omega
    | processClaim caller claimId approved =>
      simp only [step] at hstep
      obtain ⟨-, -, h2⟩ := processClaim_ok_inv s now caller claimId approved s2 hstep
      subst h2
      exact ⟨le_refl _, le_refl _⟩
    | recordServiceOp caller claimId notes =>
      simp only [step] at hstep
      obtain ⟨-, -, -, -, -, h5⟩ := recordService_ok_inv s now caller claimId notes s2 hstep
      subst h5
      exact ⟨le_refl _, le_refl _⟩
    | grantRoleOp caller role account =>
      simp only [step] at hstep
      have h := grantRole_ok_inv s caller role account s2 hstep
      subst h
      exact ⟨le_refl _, le_refl _⟩
    | revokeRoleOp caller role account =>
      simp only [step] at hstep
      have h := revokeRole_ok_inv s caller role account s2 hstep
      subst h
      exact ⟨le_refl _, le_refl _⟩

/-- Witness for C4: the first successful registration on a fresh
contract receives id 1 and bumps the record counter from 1 to 2. -/
theorem id_counters_monotone_from_one_witness :
    (1 : Nat) = (initialState 1).tokenIdCounter ∧
    c4Post.tokenIdCounter = (initialState 1).tokenIdCounter + 1 := by
  obtain ⟨ha, hb, -⟩ := id_counters_monotone_from_one.2.1 (initialState 1) 0 1 1
    "SN" "M" 100 2 c4Post 1 (by rfl)
  exact ⟨ha, hb⟩

/-- Witness for C7 on the demo state: service center 30 cannot service
the unprocessed claim 2 (not approved) nor the missing claim 9, and
servicing the approved claim 1 succeeds. -/
theorem recordService_check_order_witness :
    recordService demoState 600 30 2 "fixed" = .error .ClaimNotApproved ∧
    recordService demoState 600 30 9 "fixed" = .error .ClaimNotExist :=
  ⟨(recordService_check_order demoState 600 30 2 "fixed" (by decide)).2.1
      (by decide) (by decide),
   (recordService_check_order demoState 600 30 9 "fixed" (by decide)).1 rfl⟩

/-- The run refuting C9 as stated: deployer 1 registers a product with
the (accepted) duration `2^64 - 1` and keeps it as retailer, then hands
it to non-retailer 20 at time 1, activating the warranty. -/
def c9Trace : Except ContractError (ContractState × Address) :=
  match registerProduct (initialState 1) 0 1 1 "SN" "M" (UINT64 - 1) 2 with
  | .error e => .error e
  | .ok (s1, id) => _update s1 1 20 id

/-- C9 (counterexample): after the `c9Trace` activation the record holds
`warrantyStart = 1` and `warrantyDuration = 2^64 - 1`, but
`warrantyExpiration = 0`, not `warrantyStart + warrantyDuration = 2^64`:
the source computes `uint64(block.timestamp + warrantyDuration)`, so the
sum wraps modulo `2^64` and the stored expiration is NOT exact integer
arithmetic. -/
theorem activation_expiration_wraps_cex :
    (okValue c9Trace).map
      (fun p => ((p.1.productDetails 1).warrantyStart,
        (p.1.productDetails 1).warrantyExpiration,
        (p.1.productDetails 1).warrantyDuration)) =
      some (1, 0, UINT64 - 1) ∧
    (0 : Nat) ≠ 1 + (UINT64 - 1) := by
  exact ⟨rfl, by decide⟩

/-- C9 (amended): activation sets `warrantyStart = now mod 2^64` and
`warrantyExpiration = (now + warrantyDuration) mod 2^64` — the uint64
casts performed by the source — which coincides with the exact
arithmetic `warrantyStart + warrantyDuration` whenever
`now + warrantyDuration < 2^64` (so for the 1-year duration 31536000 at
realistic timestamps), but wraps otherwise; and once `warrantyStart` is
non-zero, no transaction changes either field again. -/
theorem activation_sets_times_mod64 (s : ContractState) (now : Nat)
    (tokenId : Nat) (customer : Address)
    (h0 : (s.productDetails tokenId).warrantyStart = 0)
    (hov : now + (s.productDetails tokenId).warrantyDuration < UINT256) :
    (_activateWarranty s now tokenId customer = .ok { s with
        productDetails := mapUpd s.productDetails tokenId
          { s.productDetails tokenId with
            warrantyStart := now % UINT64
            warrantyExpiration :=
              (now + (s.productDetails tokenId).warrantyDuration) % UINT64 } }) ∧
    (now + (s.productDetails tokenId).warrantyDuration < UINT64 →
      (now + (s.productDetails tokenId).warrantyDuration) % UINT64 =
        now % UINT64 + (s.productDetails tokenId).warrantyDuration) ∧
    (∀ (nowStep : Nat) (op : Op) (s' : ContractState) (id : Nat), Inv s →
      step s nowStep op = .ok s' →
      (s.productDetails id).warrantyStart ≠ 0 →
      (s'.productDetails id).warrantyStart = (s.productDetails id).warrantyStart ∧
      (s'.productDetails id).warrantyExpiration =
        (s.productDetails id).warrantyExpiration) := by
  refine ⟨?_, fun hlt => ?_, fun nowStep op s' id hInv hstep hact => ?_⟩
  · simp only [_activateWarranty]
    rw [if_neg (fun hc => hc h0), if_neg (not_le.mpr hov)]
  · have hn : now < UINT64 := Nat.lt_of_le_of_lt (Nat.le_add_right _ _) hlt
    rw [Nat.mod_eq_of_lt hlt, Nat.mod_eq_of_lt hn]
  · cases op with
    | register caller io sn md dur lim =>
      simp only [step] at hstep
      cases hreg : registerProduct s nowStep caller io sn md dur lim with
      | error e => rw [hreg] at hstep; exact Except.noConfusion hstep
      | ok p =>
        obtain ⟨s1, nid⟩ := p
        rw [hreg] at hstep
        have hs1 : s1 = s' := by simpa using hstep
        subst hs1
        obtain ⟨-, -, -, -, h5, -, -⟩ :=
          registerProduct_ok_inv s nowStep caller io sn md dur lim s1 nid hreg
        rw [h5]; simp only [mapUpd]
        by_cases hid : id = s.tokenIdCounter
        · exfalso
          apply hact
          rw [hid, (hInv.1 s.tokenIdCounter (le_refl _)).1]
          rfl
        · rw [if_neg hid]; exact ⟨rfl, rfl⟩
    | transfer toAddr tokenId2 =>
      simp only [step] at hstep
      by_cases hz : toAddr = 0
      · rw [if_pos hz] at hstep; exact Except.noConfusion hstep
      rw [if_neg hz] at hstep
      by_cases hnon : s.owners tokenId2 = 0
      · rw [if_pos hnon] at hstep; exact Except.noConfusion hstep
      rw [if_neg hnon] at hstep
      cases hupd : _update s nowStep toAddr tokenId2 with
      | error e => rw [hupd] at hstep; exact Except.noConfusion hstep
      | ok p =>
        obtain ⟨s1, prev⟩ := p
        rw [hupd] at hstep
        have hs1 : s1 = s' := by simpa using hstep
        subst hs1
        obtain ⟨-, -, -, -, -, -, -, h8⟩ := update_ok_inv s nowStep toAddr tokenId2 s1 prev hupd
        cases h8 with
        | inl hsame => rw [hsame]; exact ⟨rfl, rfl⟩
        | inr hpair =>
          obtain ⟨hz2, hpd⟩ := hpair
          rw [hpd]; simp only [mapUpd]
          by_cases hid : id = tokenId2
          · exfalso; apply hact; rw [hid]; exact hz2
          · rw [if_neg hid]; exact ⟨rfl, rfl⟩
    | submitClaim caller tokenId2 desc =>
      simp only [step] at hstep
      cases hsub : submitWarrantyClaim s nowStep caller tokenId2 desc with
      | error e => rw [hsub] at hstep; exact Except.noConfusion hstep
      | ok p =>
        obtain ⟨s1, nid⟩ := p
        rw [hsub] at hstep
        have hs1 : s1 = s' := by simpa using hstep
        subst hs1
        obtain ⟨-, -, -, -, -, h6, -, -⟩ :=
          submitClaim_ok_inv s nowStep caller tokenId2 desc s1 nid hsub
        rw [h6]; simp only [mapUpd]
        by_cases hid : id = tokenId2
        · subst hid; rw [if_pos rfl]; exact ⟨rfl, rfl⟩
        · rw [if_neg hid]; exact ⟨rfl, rfl⟩
    | processClaim caller claimId approved =>
      simp only [step] at hstep
      obtain ⟨-, -, h2⟩ := processClaim_ok_inv s nowStep caller claimId approved s' hstep
      subst h2
      exact ⟨rfl, rfl⟩
    | recordServiceOp caller claimId notes =>
      simp only [step] at hstep
      obtain ⟨-, -, -, -, -, h5⟩ := recordService_ok_inv s nowStep caller claimId notes s' hstep
      subst h5
      exact ⟨rfl, rfl⟩
    | grantRoleOp caller role account =>
      simp only [step] at hstep
      have h := grantRole_ok_inv s caller role account s' hstep
      subst h
      exact ⟨rfl, rfl⟩
    | revokeRoleOp caller role account =>
      simp only [step] at hstep
      have h := revokeRole_ok_inv s caller role account s' hstep
      subst h
      exact ⟨rfl, rfl⟩

/-- C8: in any invariant-satisfying state, every transaction preserves a
claim's processed decision once taken — `processed` stays true and
`approved` / `processedAt` never change, and a second `processWarrantyClaim`
on a processed claim fails with `ClaimAlreadyProcessed` — and its
`serviceNotes` move from empty to non-empty at most once, and only on a
claim that was already processed and approved. -/
theorem claim_one_shot_transitions (s : ContractState) (now : Nat) (op : Op)
    (s' : ContractState) (cid : Nat)
    (hInv : Inv s) (hstep : step s now op = .ok s') :
    ((s.warrantyClaims cid).processed = true →
      (s'.warrantyClaims cid).processed = true ∧
      (s'.warrantyClaims cid).approved = (s.warrantyClaims cid).approved ∧
      (s'.warrantyClaims cid).processedAt = (s.warrantyClaims cid).processedAt) ∧
    ((s.warrantyClaims cid).serviceNotes ≠ "" →
      (s'.warrantyClaims cid).serviceNotes = (s.warrantyClaims cid).serviceNotes) ∧
    ((s.warrantyClaims cid).serviceNotes = "" →
      (s'.warrantyClaims cid).serviceNotes ≠ "" →
      (s.warrantyClaims cid).processed = true ∧
      (s.warrantyClaims cid).approved = true) ∧
    (∀ (caller : Address) (approved2 : Bool),
      (s.warrantyClaims cid).tokenId ≠ 0 →
      (s.warrantyClaims cid).processed = true →
      hasRole s .SERVICE_CENTER caller = true →
      processWarrantyClaim s now caller cid approved2 =
        .error .ClaimAlreadyProcessed) := by
  have last : ∀ (caller : Address) (approved2 : Bool),
      (s.warrantyClaims cid).tokenId ≠ 0 →
      (s.warrantyClaims cid).processed = true →
      hasRole s .SERVICE_CENTER caller = true →
      processWarrantyClaim s now caller cid approved2 =
        .error .ClaimAlreadyProcessed := by
    intro caller appr htk hpr hrl
    simp only [hasRole] at hrl
    simp [processWarrantyClaim, hasRole, hrl, htk, hpr]
  have easy : s'.warrantyClaims cid = s.warrantyClaims cid →
      ((s.warrantyClaims cid).processed = true →
        (s'.warrantyClaims cid).processed = true ∧
        (s'.warrantyClaims cid).approved = (s.warrantyClaims cid).approved ∧
        (s'.warrantyClaims cid).processedAt = (s.warrantyClaims cid).processedAt) ∧
      ((s.warrantyClaims cid).serviceNotes ≠ "" →
        (s'.warrantyClaims cid).serviceNotes = (s.warrantyClaims cid).serviceNotes) ∧
      ((s.warrantyClaims cid).serviceNotes = "" →
        (s'.warrantyClaims cid).serviceNotes ≠ "" →
        (s.warrantyClaims cid).processed = true ∧
        (s.warrantyClaims cid).approved = true) := by
    intro heq
    rw [heq]
    exact ⟨fun hp => ⟨hp, rfl, rfl⟩, fun _ => rfl, fun he hne => absurd he hne⟩
  have main : ((s.warrantyClaims cid).processed = true →
      (s'.warrantyClaims cid).processed = true ∧
      (s'.warrantyClaims cid).approved = (s.warrantyClaims cid).approved ∧
      (s'.warrantyClaims cid).processedAt = (s.warrantyClaims cid).processedAt) ∧
      ((s.warrantyClaims cid).serviceNotes ≠ "" →
        (s'.warrantyClaims cid).serviceNotes = (s.warrantyClaims cid).serviceNotes) ∧
      ((s.warrantyClaims cid).serviceNotes = "" →
        (s'.warrantyClaims cid).serviceNotes ≠ "" →
        (s.warrantyClaims cid).processed = true ∧
        (s.warrantyClaims cid).approved = true) := by
    clear last
    cases op with
    | register caller io sn md dur lim =>
      simp only [step] at hstep
      cases hreg : registerProduct s now caller io sn md dur lim with
      | error e => rw [hreg] at hstep; exact Except.noConfusion hstep
      | ok p =>
        obtain ⟨s1, nid⟩ := p
        rw [hreg] at hstep
        have hs1 : s1 = s' := by simpa using hstep
        subst hs1
        obtain ⟨-, -, -, h4, -, -, -⟩ :=
          registerProduct_ok_inv s now caller io sn md dur lim s1 nid hreg
        exact easy (by rw [h4])
    | transfer toAddr tokenId =>
      simp only [step] at hstep
      by_cases hz : toAddr = 0
      · rw [if_pos hz] at hstep; exact Except.noConfusion hstep
      rw [if_neg hz] at hstep
      by_cases hnon : s.owners tokenId = 0
      · rw [if_pos hnon] at hstep; exact Except.noConfusion hstep
      rw [if_neg hnon] at hstep
      cases hupd : _update s now toAddr tokenId with
      | error e => rw [hupd] at hstep; exact Except.noConfusion hstep
      | ok p =>
        obtain ⟨s1, prev⟩ := p
        rw [hupd] at hstep
        have hs1 : s1 = s' := by simpa using hstep
        subst hs1
        obtain ⟨-, -, -, h4, -, -, -, -⟩ := update_ok_inv s now toAddr tokenId s1 prev hupd
        exact easy (by rw [h4])
    | submitClaim caller tokenId desc =>
      simp only [step] at hstep
      cases hsub : submitWarrantyClaim s now caller tokenId desc with
      | error e => rw [hsub] at hstep; exact Except.noConfusion hstep
      | ok p =>
        obtain ⟨s1, nid⟩ := p
        rw [hsub] at hstep
        have hs1 : s1 = s' := by simpa using hstep
        subst hs1
        obtain ⟨-, -, -, -, -, -, h7, -⟩ :=
          submitClaim_ok_inv s now caller tokenId desc s1 nid hsub
        by_cases hc : cid = s.claimIdCounter
        · have hemp : s.warrantyClaims cid = emptyClaim := hInv.2 cid (by omega)
          have hafter : (s1.warrantyClaims cid).serviceNotes = "" := by
            rw [h7]; simp [mapUpd, hc]
          refine ⟨fun hp => ?_, fun hn => ?_, fun he hne => absurd hafter hne⟩
          · rw [hemp] at hp; exact absurd hp (by decide)
          · rw [hemp] at hn; exact absurd rfl hn
        · have hpt : s1.warrantyClaims cid = s.warrantyClaims cid := by
            rw [h7]; simp [mapUpd, hc]
          exact easy hpt
    | processClaim caller claimId approved =>
      simp only [step] at hstep
      obtain ⟨-, hpf, h2⟩ := processClaim_ok_inv s now caller claimId approved s' hstep
      subst h2
      have hnotes : ∀ c, (mapUpd s.warrantyClaims claimId
          { s.warrantyClaims claimId with
            processed := true, approved := approved,
            processedAt := now % UINT64 } c).serviceNotes =
          (s.warrantyClaims c).serviceNotes := by
        intro c
        by_cases hc : c = claimId
        · simp [mapUpd, hc]
        · simp [mapUpd, hc]
      refine ⟨fun hp => ?_, fun hn => hnotes cid,
        fun he hne => absurd ((hnotes cid).trans he) hne⟩
      by_cases hc : cid = claimId
      · rw [hc, hpf] at hp; exact Bool.noConfusion hp
      · exact ⟨by simp [mapUpd, hc, hp], by simp [mapUpd, hc], by simp [mapUpd, hc]⟩
    | recordServiceOp caller claimId notes =>
      simp only [step] at hstep
      obtain ⟨-, hpt, hat, hsn0, -, h5⟩ := recordService_ok_inv s now caller claimId notes s' hstep
      subst h5
      have hsn : (s.warrantyClaims claimId).serviceNotes = "" :=
        string_length_zero _ hsn0
      by_cases hc : cid = claimId
      · refine ⟨fun hp => ⟨by simp [mapUpd, hc, hpt], by simp [mapUpd, hc],
          by simp [mapUpd, hc]⟩,
          fun hn => absurd (by rw [hc]; exact hsn) hn,
          fun he hne => ⟨by rw [hc]; exact hpt, by rw [hc]; exact hat⟩⟩
      · refine ⟨fun hp => ⟨by simp [mapUpd, hc, hp], by simp [mapUpd, hc],
          by simp [mapUpd, hc]⟩,
          fun hn => by simp [mapUpd, hc],
          fun he hne => absurd ((by simp [mapUpd, hc] :
            (mapUpd s.warrantyClaims claimId
              { s.warrantyClaims claimId with serviceNotes := notes } cid).serviceNotes =
            (s.warrantyClaims cid).serviceNotes).trans he) hne⟩
    | grantRoleOp caller role account =>
      simp only [step] at hstep
      have h := grantRole_ok_inv s caller role account s' hstep
      subst h
      exact easy rfl
    | revokeRoleOp caller role account =>
      simp only [step] at hstep
      have h := revokeRole_ok_inv s caller role account s' hstep
      subst h
      exact easy rfl
  exact ⟨main.1, main.2.1, main.2.2, last⟩

/-- State after service center 30 approves the pending claim 2 of the
demo state at time 700. -/
def c8Post : ContractState := { demoState with
  warrantyClaims := mapUpd demoState.warrantyClaims 2
    { demoClaim2 with processed := true, approved := true, processedAt := 700 } }

/-- Witness for C8: processing claim 2 of the demo state leaves the
already-processed claim 1 untouched, and re-processing claim 1 fails
with `ClaimAlreadyProcessed`. -/
theorem claim_one_shot_transitions_witness :
    ((c8Post.warrantyClaims 1).processed = true ∧
      (c8Post.warrantyClaims 1).approved = (demoState.warrantyClaims 1).approved ∧
      (c8Post.warrantyClaims 1).processedAt = (demoState.warrantyClaims 1).processedAt) ∧
    processWarrantyClaim demoState 700 30 1 true = .error .ClaimAlreadyProcessed := by
  obtain ⟨h1, -, -, h4⟩ := claim_one_shot_transitions demoState 700
    (.processClaim 30 2 true) c8Post 1 inv_demoState (by rfl)
  exact ⟨h1 (by decide), h4 30 true (by decide) (by decide) (by decide)⟩

/-- Witness for C9's amended theorem: activating product 2 of the demo
state at time 500 stores start 500 and expiration 1500, exact because
500 + 1000 is far below 2^64. -/
theorem activation_sets_times_mod64_witness :
    _activateWarranty demoState 500 2 20 = .ok { demoState with
      productDetails := mapUpd demoState.productDetails 2
        { demoState.productDetails 2 with
          warrantyStart := 500 % UINT64
          warrantyExpiration :=
            (500 + (demoState.productDetails 2).warrantyDuration) % UINT64 } } ∧
    (500 + (demoState.productDetails 2).warrantyDuration) % UINT64 =
      500 % UINT64 + (demoState.productDetails 2).warrantyDuration := by
  obtain ⟨h1, h2, -⟩ := activation_sets_times_mod64 demoState 500 2 20 (by decide) (by decide)
  exact ⟨h1, h2 (by decide)⟩

end Product
